import Mathlib

/-!
Verification of the DustIQ data-unification pipeline
(`src/data_pipeline/data_unifier.py`, `src/data_pipeline/fetch_openaq.py`,
`src/data_pipeline/config.py`).

Numeric values are modelled as exact rationals (`ℚ`); a missing value
(pandas `NaN`) is `Option.none`.  Timestamps are whole hours since an
arbitrary epoch, carried as `ℚ` inside table cells and as `ℤ` where the
code manipulates `datetime` objects directly.  A pandas `DataFrame` is
modelled as an explicit column list plus rows of association lists
(`String × Option ℚ`): a key that is present with value `none` is a
`NaN` cell, while a column that is absent from `cols` does not exist,
matching the `col in df.columns` tests of the source.
-/

namespace DustIQ

/-! ### Basic cells, rows and data frames -/

abbrev Cell := Option ℚ

abbrev Row := List (String × Cell)

/-- Reading a cell of a row; a missing key behaves like `NaN`
(total model of `df[col]` for the row). -/
def getCell (r : Row) (c : String) : Cell :=
  match r.lookup c with
  | some v => v
  | none => none

structure DF where
  cols : List String
  rows : List Row
deriving DecidableEq, Repr

def emptyDF : DF := ⟨[], []⟩

/-- `config.DataConfig.TARGET_COLUMNS`. -/
def TARGET_COLUMNS : List String :=
  ["time", "PM2.5", "PM10", "O3", "NO2", "SO2", "CO",
   "temperature", "humidity", "wind_speed"]

/-- The canonical data columns, `TARGET_COLUMNS[1:]` in the source. -/
def CANONICAL : List String := TARGET_COLUMNS.drop 1

/-- The six pollutant columns tested by the `no_data_flag` computation in
`_finalize_dataset`. -/
def POLLUTANTS : List String := ["PM2.5", "PM10", "O3", "NO2", "SO2", "CO"]

/-- `config.DataConfig.GRID_RESOLUTION` (0.125 degrees). -/
def GRID_RESOLUTION : ℚ := 1 / 8

/-! ### Grid normalizer

`_regrid_to_common_grid` and `_clean_measurements` both compute
`(coord / resolution).round() * resolution`.  numpy/pandas `round`
rounds half to even, which `roundHalfEven` reproduces exactly. -/

/-- Round half to even, the semantics of numpy and pandas `.round()`. -/
def roundHalfEven (q : ℚ) : ℤ :=
  if q - ⌊q⌋ < 1 / 2 then ⌊q⌋
  else if 1 / 2 < q - ⌊q⌋ then ⌊q⌋ + 1
  else if ⌊q⌋ % 2 = 0 then ⌊q⌋ else ⌊q⌋ + 1

/-- One axis of the grid snap: `round(coord / resolution) * resolution`. -/
def snap (res coord : ℚ) : ℚ := (roundHalfEven (coord / res)) * res

/-- Both axes, yielding the `(lat_grid, lon_grid)` GridCell. -/
def snapPair (res lat lon : ℚ) : ℚ × ℚ := (snap res lat, snap res lon)

theorem roundHalfEven_intCast (k : ℤ) : roundHalfEven (k : ℚ) = k := by
  simp [roundHalfEven, Int.floor_intCast]

theorem snap_snap {res : ℚ} (h : res ≠ 0) (x : ℚ) :
    snap res (snap res x) = snap res x := by
  unfold snap
  rw [mul_div_cancel_right₀ _ h, roundHalfEven_intCast]

/-- If `q` lies strictly within 1/2 of the integer `k`, every rounding rule
that refines floor/ceil returns `k`; in particular round-half-even does. -/
theorem roundHalfEven_eq_of_abs_lt {q : ℚ} {k : ℤ} (h : |q - k| < 1 / 2) :
    roundHalfEven q = k := by
  have h1 : (k : ℚ) - 1 / 2 < q ∧ q < (k : ℚ) + 1 / 2 := by
    constructor <;> [linarith [abs_lt.mp h]; linarith [abs_lt.mp h]]
  rcases le_or_lt (k : ℚ) q with hk | hk
  · have hf : ⌊q⌋ = k := by
      rw [Int.floor_eq_iff]
      exact ⟨hk, by linarith [h1.2]⟩
    unfold roundHalfEven
    rw [hf, if_pos (by linarith [h1.2])]
  · have hf : ⌊q⌋ = k - 1 := by
      rw [Int.floor_eq_iff]
      push_cast
      exact ⟨by linarith [h1.1], by linarith⟩
    have hlt : 1 / 2 < q - (((k - 1) : ℤ) : ℚ) := by push_cast; linarith [h1.1]
    unfold roundHalfEven
    rw [hf, if_neg (by linarith), if_pos hlt]
    omega

/-- A coordinate strictly within half a grid step of the grid multiple
`k * res` snaps to that multiple. -/
theorem snap_eq_of_near_grid {res x : ℚ} {k : ℤ} (hres : 0 < res)
    (h : |x - k * res| < res / 2) : snap res x = k * res := by
  have hne : res ≠ 0 := ne_of_gt hres
  have hq : |x / res - k| < 1 / 2 := by
    have : x / res - k = (x - k * res) / res := by
      rw [sub_div, mul_div_cancel_right₀ _ hne]
    rw [this, abs_div, abs_of_pos hres]
    rw [div_lt_iff₀ hres]
    calc |x - k * res| < res / 2 := h
      _ = 1 / 2 * res := by ring
  unfold snap
  rw [roundHalfEven_eq_of_abs_lt hq]

/-! ### Ground extractor: `OpenAQFetcher._clean_measurements`

One record of the measurement DataFrame built in
`_fetch_location_sensors_data`; `datetime` is hours since an arbitrary
epoch (`none` models an unparseable timestamp turned into `NaT` by
`pd.to_datetime(..., errors="coerce")`). -/

structure Meas where
  datetime : Option ℤ
  parameter : String
  value : Option ℚ
  latitude : Option ℚ
  longitude : Option ℚ
deriving DecidableEq, Repr

/-- A cleaned record: the input plus the `lat_grid`, `lon_grid` and `date`
columns added at the end of `_clean_measurements`. -/
structure CleanedMeas extends Meas where
  lat_grid : Option ℚ
  lon_grid : Option ℚ
  date : Option ℤ
deriving DecidableEq, Repr

/-- `df.dropna(subset=["datetime"])`. -/
def keepDatetime (m : Meas) : Bool := m.datetime.isSome

/-- `df[df["value"] >= 0]`: a `NaN` comparison is `False`, so absent
values are dropped here as well. -/
def keepValue (m : Meas) : Bool :=
  match m.value with
  | some v => decide (0 ≤ v)
  | none => false

/-- `df["value"] > threshold` for one row. -/
def valueAbove (q : ℚ) (m : Meas) : Bool :=
  match m.value with
  | some v => decide (q < v)
  | none => false

/-- The values of one parameter, `df[df["parameter"] == param]["value"]`
(`NaN` values are skipped, as pandas `quantile` does). -/
def paramValues (l : List Meas) (p : String) : List ℚ :=
  l.filterMap (fun m => if m.parameter = p then m.value else none)

/-- pandas `Series.quantile(0.999)` with the default linear
interpolation: position `h = 0.999 * (n - 1)` in the sorted values,
interpolating between the two neighbouring order statistics. -/
def quantile999 (vals : List ℚ) : ℚ :=
  let sorted := vals.mergeSort (fun a b => decide (a ≤ b))
  let n := sorted.length
  if n = 0 then 0
  else
    let h : ℚ := (999 / 1000) * ((n : ℚ) - 1)
    let i := (⌊h⌋).toNat
    let lo := sorted.getD i 0
    let hi := sorted.getD (min (i + 1) (n - 1)) 0
    lo + (h - ⌊h⌋) * (hi - lo)

/-- The mask `param_mask & (df["value"] > upper_threshold)` removed in one
iteration of the outlier loop. -/
def dropOutlier (p : String) (q : ℚ) (m : Meas) : Bool :=
  m.parameter == p && valueAbove q m

/-- `for param in df["parameter"].unique(): ... df = df[~(mask & above)]`;
the iterated parameter list is fixed before the loop runs, while masks and
thresholds are recomputed from the current frame. -/
def outlierLoop (df : List Meas) : List String → List Meas
  | [] => df
  | p :: ps =>
    outlierLoop (df.filter (fun m => !(dropOutlier p (quantile999 (paramValues df p)) m))) ps

/-- The fixed `parameter_mapping` lookup table. -/
def parameterMapping : List (String × String) :=
  [("pm25", "PM2.5"), ("pm10", "PM10"), ("no2", "NO2"),
   ("o3", "O3"), ("so2", "SO2"), ("co", "CO")]

/-- `df["parameter"].map(parameter_mapping).fillna(df["parameter"])`:
mapped names are canonicalised, unmapped names pass through. -/
def mapParameter (m : Meas) : Meas :=
  { m with parameter := (parameterMapping.lookup m.parameter).getD m.parameter }

/-- Grid-cell assignment and the `date` partition column; a record with a
missing coordinate simply receives missing grid coordinates.  `date` is
the calendar day of an hour count, i.e. floored division by 24. -/
def addGridCell (m : Meas) : CleanedMeas :=
  { m with
    lat_grid := m.latitude.map (fun x => snap GRID_RESOLUTION x)
    lon_grid := m.longitude.map (fun x => snap GRID_RESOLUTION x)
    date := m.datetime.map (fun t => Int.fdiv t 24) }

/-- `OpenAQFetcher._clean_measurements`, stage by stage. -/
def cleanMeasurements (df : List Meas) : List CleanedMeas :=
  let df1 := df.filter keepDatetime
  let df2 := (df1.filter keepValue).filter (fun m => m.value.isSome)
  let df3 := outlierLoop df2 ((df2.map (fun m => m.parameter)).dedup)
  (df3.map mapParameter).map addGridCell

/-- Declarative restatement used by the amended claim C9: keep exactly the
records with a parseable datetime and a present non-negative value that do
not exceed their parameter's 99.9th percentile; coordinates are never
consulted when dropping rows. -/
def cleanMeasurementsSpec (df : List Meas) : List CleanedMeas :=
  let kept := df.filter (fun m => keepDatetime m && keepValue m)
  let inliers :=
    kept.filter (fun m => !(valueAbove (quantile999 (paramValues kept m.parameter)) m))
  inliers.map (fun m => addGridCell (mapParameter m))

/-- Removing rows of parameter `p` does not change another parameter's
value series. -/
lemma paramValues_filter_ne {p q : String} (c : ℚ) (hne : q ≠ p) (l : List Meas) :
    paramValues (l.filter (fun m => !(dropOutlier p c m))) q = paramValues l q := by
  induction l with
  | nil => rfl
  | cons m l ih =>
    simp only [List.filter_cons]
    by_cases h : (!(dropOutlier p c m)) = true
    · rw [if_pos h]
      simp only [paramValues, List.filterMap_cons] at ih ⊢
      split <;> simp [ih]
    · rw [if_neg h]
      have hp : m.parameter = p := by
        have h2 : dropOutlier p c m = true := by
          cases h3 : dropOutlier p c m with
          | true => rfl
          | false => exact absurd (by simp [h3]) h
        exact eq_of_beq (Bool.and_elim_left h2)
      have hq : ¬ m.parameter = q := fun hh => hne (hh ▸ hp ▸ rfl)
      simp only [paramValues, List.filterMap_cons] at ih ⊢
      rw [if_neg (by exact fun hh => hq hh)] at *
      exact ih

/-- The sequential outlier loop is extensionally a single filter against
thresholds computed from the frame the loop started with: each iteration
removes rows of one parameter only, so later thresholds see the other
parameters' rows unchanged. -/
lemma outlierLoop_eq (ps : List String) : ∀ (l : List Meas), ps.Nodup →
    outlierLoop l ps = l.filter (fun m =>
      if m.parameter ∈ ps then
        !(valueAbove (quantile999 (paramValues l m.parameter)) m)
      else true) := by
  induction ps with
  | nil =>
    intro l _
    simp [outlierLoop]
  | cons p ps ih =>
    intro l hnd
    obtain ⟨hpnotin, hps⟩ := List.nodup_cons.mp hnd
    rw [show outlierLoop l (p :: ps)
          = outlierLoop
              (l.filter (fun m => !(dropOutlier p (quantile999 (paramValues l p)) m))) ps
        from rfl]
    rw [ih _ hps, List.filter_filter]
    apply List.filter_congr
    intro m _
    by_cases hmp : m.parameter = p
    · have h2 : m.parameter ∉ ps := hmp ▸ hpnotin
      rw [if_neg h2, if_pos (by simp [hmp]), Bool.true_and]
      simp [dropOutlier, hmp]
    · by_cases hmem : m.parameter ∈ ps
      · rw [if_pos hmem, if_pos (List.mem_cons.mpr (Or.inr hmem))]
        rw [paramValues_filter_ne _ hmp l]
        simp [dropOutlier, hmp]
      · rw [if_neg hmem, if_neg (by simp [hmp, hmem])]
        simp [dropOutlier, hmp]

/-- The three leading row filters collapse to one predicate: the
`notna` filter is redundant after `value >= 0`, and coordinates are
never consulted. -/
lemma filter_value_eq (df : List Meas) :
    ((df.filter keepDatetime).filter keepValue).filter (fun m => m.value.isSome)
      = df.filter (fun m => keepDatetime m && keepValue m) := by
  rw [List.filter_filter, List.filter_filter]
  apply List.filter_congr
  intro m _
  cases hv : m.value <;> cases hd : m.datetime <;>
    simp [keepValue, keepDatetime, hv, hd, Bool.and_comm]

/-- Claim C9, counterexample: a reading with missing latitude and
longitude (datetime parseable, value `5 ≥ 0`) is RETAINED by
`_clean_measurements` — with missing grid coordinates and its parameter
mapped — although the claim says readings missing latitude or longitude
are dropped.  The cleaning stages never consult the coordinates. -/
theorem claim9_counterexample :
    cleanMeasurements [⟨some 0, "pm25", some 5, none, none⟩]
      = [⟨⟨some 0, "PM2.5", some 5, none, none⟩, none, none, some 0⟩] := by
  with_unfolding_all decide

/-- Claim C9 (amended): `_clean_measurements` keeps exactly the readings
with a parseable datetime and a present non-negative value not exceeding
their parameter's 99.9th percentile; readings missing latitude or
longitude are kept (receiving missing grid cells), and parameter names
are mapped through the fixed lookup table with unmapped names passed
through unchanged. -/
theorem claim9_amended_clean_characterization (df : List Meas) :
    cleanMeasurements df = cleanMeasurementsSpec df := by
  simp only [cleanMeasurements, cleanMeasurementsSpec]
  rw [filter_value_eq]
  rw [outlierLoop_eq _ _ (List.nodup_dedup _)]
  rw [List.map_map]
  have hfc :
      (df.filter (fun m => keepDatetime m && keepValue m)).filter (fun m =>
          if m.parameter ∈ ((df.filter (fun m => keepDatetime m && keepValue m)).map
              (fun m => m.parameter)).dedup then
            !(valueAbove (quantile999 (paramValues
                (df.filter (fun m => keepDatetime m && keepValue m)) m.parameter)) m)
          else true)
        = (df.filter (fun m => keepDatetime m && keepValue m)).filter (fun m =>
            !(valueAbove (quantile999 (paramValues
                (df.filter (fun m => keepDatetime m && keepValue m)) m.parameter)) m)) := by
    apply List.filter_congr
    intro m hm
    rw [if_pos (List.mem_dedup.mpr (List.mem_map_of_mem _ hm))]
  rw [hfc]
  rfl

/-! ### Generic sorted-dedup helper (pandas sorts group keys and pivot
columns ascending). -/

def sortDedup {α : Type} [LinearOrder α] [DecidableEq α] (l : List α) : List α :=
  l.dedup.mergeSort (fun a b => decide (a ≤ b))

lemma decideLE_trans {α : Type} [LinearOrder α] (a b c : α)
    (h1 : decide (a ≤ b) = true) (h2 : decide (b ≤ c) = true) : decide (a ≤ c) = true :=
  decide_eq_true (le_trans (of_decide_eq_true h1) (of_decide_eq_true h2))

lemma decideLE_total {α : Type} [LinearOrder α] (a b : α) :
    (decide (a ≤ b) || decide (b ≤ a)) = true := by
  rcases le_total a b with h | h <;> simp [h]

lemma sortDedup_sorted {α : Type} [LinearOrder α] [DecidableEq α] (l : List α) :
    (sortDedup l).Sorted (· ≤ ·) :=
  (List.sorted_mergeSort decideLE_trans decideLE_total l.dedup).imp
    (fun h => of_decide_eq_true h)

lemma sortDedup_nodup {α : Type} [LinearOrder α] [DecidableEq α] (l : List α) :
    (sortDedup l).Nodup :=
  (List.mergeSort_perm l.dedup _).symm.nodup (List.nodup_dedup l)

lemma sortDedup_eq_of_perm {α : Type} [LinearOrder α] [DecidableEq α]
    {l l' : List α} (h : List.Perm l l') : sortDedup l = sortDedup l' := by
  have hp : List.Perm (sortDedup l) (sortDedup l') :=
    ((List.mergeSort_perm l.dedup _).trans h.dedup).trans
      (List.mergeSort_perm l'.dedup _).symm
  exact List.eq_of_perm_of_sorted hp (sortDedup_sorted l) (sortDedup_sorted l')

/-! ### Wide reshaper: the `pivot_table(index=[time, lat_grid, lon_grid],
columns=variable/parameter, values=value, aggfunc="mean")` calls of
`_process_ground_data`, `_process_tempo_data`, `_process_weather_data`
and `_process_viirs_data`. -/

/-- A long-form record before regridding (the rows produced by
`_netcdf_to_dataframe`): `var` models the `variable` column. -/
structure RawObs where
  time : ℤ
  latitude : Option ℚ
  longitude : Option ℚ
  var : String
  value : Option ℚ
deriving DecidableEq, Repr

/-- A long-form record carrying grid coordinates (the OpenAQ parquet rows
already have `lat_grid`/`lon_grid` from `_clean_measurements`; for the
other sources they come from `_regrid_to_common_grid`).  For the ground
source, `time` is the `datetime` column (renamed to `time` after the
pivot) and `var` the `parameter` column. -/
structure GridObs where
  time : ℤ
  lat_grid : Option ℚ
  lon_grid : Option ℚ
  var : String
  value : Option ℚ
deriving DecidableEq, Repr

/-- `_regrid_to_common_grid`: snap both coordinates to the configured
resolution (missing coordinates give missing grid cells). -/
def regridObs (o : RawObs) : GridObs :=
  ⟨o.time, o.latitude.map (snap GRID_RESOLUTION), o.longitude.map (snap GRID_RESOLUTION),
   o.var, o.value⟩

/-- A pivot group key `(time, lat_grid, lon_grid)`, ordered
lexicographically the way pandas sorts a MultiIndex. -/
abbrev PivotKey := Lex (ℤ × Lex (ℚ × ℚ))

/-- The group key of a record; rows with a missing key level or a missing
value are dropped by `pivot_table` before aggregation. -/
def obsKey (o : GridObs) : Option PivotKey :=
  match o.lat_grid, o.lon_grid, o.value with
  | some a, some b, some _ => some (toLex (o.time, toLex (a, b)))
  | _, _, _ => none

/-- The column label contributed by a record (same dropping rule). -/
def obsVar (o : GridObs) : Option String :=
  match o.lat_grid, o.lon_grid, o.value with
  | some _, some _, some _ => some o.var
  | _, _, _ => none

def keyTime (k : PivotKey) : ℤ := (ofLex k).1
def keyLat (k : PivotKey) : ℚ := (ofLex (ofLex k).2).1
def keyLon (k : PivotKey) : ℚ := (ofLex (ofLex k).2).2

/-- Arithmetic mean, `NaN` on an empty group like pandas `mean`. -/
def mean (vs : List ℚ) : Cell :=
  match vs with
  | [] => none
  | _ => some (vs.sum / (vs.length : ℚ))

/-- The values aggregated into the cell of group `k` and column `v`. -/
def cellValues (obs : List GridObs) (k : PivotKey) (v : String) : List ℚ :=
  obs.filterMap (fun o =>
    match obsKey o with
    | some k2 => if k2 = k ∧ o.var = v then o.value else none
    | none => none)

/-- The shared pivot: one row per distinct key (sorted ascending), one
column per distinct variable (sorted ascending), cells aggregated by
mean; empty input yields an empty table. -/
def pivotTable (obs : List GridObs) : DF :=
  let ks := sortDedup (obs.filterMap obsKey)
  let vs := sortDedup (obs.filterMap obsVar)
  ⟨"time" :: "lat_grid" :: "lon_grid" :: vs,
   ks.map (fun k =>
     ("time", some ((keyTime k : ℚ))) :: ("lat_grid", some (keyLat k)) ::
       ("lon_grid", some (keyLon k)) ::
       vs.map (fun v => (v, mean (cellValues obs k v))))⟩

lemma mean_congr_perm {vs vs' : List ℚ} (h : List.Perm vs vs') : mean vs = mean vs' := by
  cases vs with
  | nil =>
    rw [h.symm.eq_nil]
  | cons a t =>
    cases vs' with
    | nil => have := h.length_eq; simp at this
    | cons b t2 => simp [mean, h.sum_eq, h.length_eq]

/-- Claim C7: reshaping is invariant under permutation of the input
records — the pivoted wide table (row set, column set and mean-aggregated
cells) is identical for any reordering of the observations. -/
theorem claim7_reshape_perm_invariant (l l' : List GridObs)
    (h : List.Perm l l') : pivotTable l = pivotTable l' := by
  simp only [pivotTable]
  rw [sortDedup_eq_of_perm (h.filterMap obsKey),
      sortDedup_eq_of_perm (h.filterMap obsVar)]
  congr 1
  apply List.map_congr_left
  intro k _
  congr 3
  apply List.map_congr_left
  intro v _
  have hp : List.Perm (cellValues l k v) (cellValues l' k v) := h.filterMap _
  rw [mean_congr_perm hp]

/-- Two concrete two-record observation lists in swapped order. -/
def obsSwapA : List GridObs :=
  [⟨0, some 34, some (-118), "PM2.5", some 12⟩,
   ⟨0, some 34, some (-118), "PM2.5", some 14⟩]

def obsSwapB : List GridObs :=
  [⟨0, some 34, some (-118), "PM2.5", some 14⟩,
   ⟨0, some 34, some (-118), "PM2.5", some 12⟩]

/-- Claim C7, witness instantiation: two concrete ground observations in
swapped order give the same wide table. -/
theorem claim7_witness : pivotTable obsSwapA = pivotTable obsSwapB :=
  claim7_reshape_perm_invariant obsSwapA obsSwapB (by with_unfolding_all decide)

/-! ### Per-source processing (`_process_ground_data`,
`_process_tempo_data`, `_process_weather_data`, `_process_viirs_data`).

Each returns an empty frame when its source yields nothing (missing
file, empty category, unreadable files), otherwise the pivoted wide
table plus a string-valued `data_source` column.  String cells carry no
numeric information relevant to the pipeline, so they are modelled as
missing cells — only the column's presence matters downstream. -/

def addSourceCol (df : DF) : DF :=
  ⟨df.cols ++ ["data_source"], df.rows.map (fun r => r ++ [("data_source", (none : Cell))])⟩

def processGroundData (obs : List GridObs) : DF :=
  if obs.isEmpty then emptyDF else addSourceCol (pivotTable obs)

def processTempoData (recs : List RawObs) : DF :=
  if recs.isEmpty then emptyDF else addSourceCol (pivotTable (recs.map regridObs))

def processWeatherData (recs : List RawObs) : DF :=
  if recs.isEmpty then emptyDF else addSourceCol (pivotTable (recs.map regridObs))

/-- One AOD retrieval sample for `_process_viirs_data`. -/
structure AodObs where
  time : ℤ
  latitude : Option ℚ
  longitude : Option ℚ
  value : Option ℚ
deriving DecidableEq, Repr

/-- The two empirical conversions `pm25_est = aod * 35`,
`pm10_est = aod * 60` applied before regridding and pivoting. -/
def viirsExpand (recs : List AodObs) : List RawObs :=
  recs.map (fun a => ⟨a.time, a.latitude, a.longitude, "PM2.5_satellite", a.value.map (· * 35)⟩)
    ++ recs.map (fun a => ⟨a.time, a.latitude, a.longitude, "PM10_satellite", a.value.map (· * 60)⟩)

def processViirsData (recs : List AodObs) : DF :=
  if recs.isEmpty then emptyDF
  else addSourceCol (pivotTable ((viirsExpand recs).map regridObs))

/-! ### Cross-source merger (`_merge_all_sources`) -/

/-- `pd.merge` suffix handling: an overlapping (shared, non-key) column
name gets the side's suffix, all others keep their name. -/
def suffixName (overlap : List String) (suff : String) (c : String) : String :=
  if overlap.contains c then c ++ suff else c

def suffixRow (overlap : List String) (suff : String) (r : Row) : Row :=
  r.map (fun p => (suffixName overlap suff p.1, p.2))

def keyMatch (keys : List String) (r s : Row) : Bool :=
  keys.all (fun k => getCell r k == getCell s k)

/-- The merged rows contributed by one left row: one copy per matching
right row (right non-key cells appended, suitably suffixed), or a single
copy padded with missing right cells when nothing matches. -/
def mergeRowsFor (keys : List String) (overlap rightDataCols : List String)
    (suffL suffR : String) (R : DF) (r : Row) : List Row :=
  match R.rows.filter (fun s => keyMatch keys r s) with
  | [] => [suffixRow overlap suffL r
      ++ rightDataCols.map (fun c => (suffixName overlap suffR c, (none : Cell)))]
  | ms => ms.map (fun s => suffixRow overlap suffL r
      ++ suffixRow overlap suffR (s.filter (fun p => !(keys.contains p.1))))

/-- `L.merge(R, on=keys, how="left", suffixes=(suffL, suffR))`: every left
row is kept; it is replicated for each matching right row, with the right
row's non-key cells appended (missing when there is no match). -/
def mergeLeft (keys : List String) (suffL suffR : String) (L R : DF) : DF :=
  let overlap := (L.cols.filter (fun c => R.cols.contains c)).filter
    (fun c => !(keys.contains c))
  let rightDataCols := R.cols.filter (fun c => !(keys.contains c))
  ⟨(L.cols.map (suffixName overlap suffL)) ++ (rightDataCols.map (suffixName overlap suffR)),
   L.rows.flatMap (mergeRowsFor keys overlap rightDataCols suffL suffR R)⟩

def GRID_KEYS : List String := ["time", "lat_grid", "lon_grid"]

/-- `_merge_all_sources`: ground is the base if non-empty, else TEMPO;
weather, TEMPO and VIIRS are then left-joined in this order.  The
source's guard on the TEMPO merge, `'tempo' not in
merged.get('data_source', '')`, is an index-membership test on a string
column and is therefore always true, so TEMPO is merged whenever
non-empty — even onto itself when it is the base. -/
def mergeAllSources (ground tempo weather viirs : DF) : DF :=
  let base := if !ground.rows.isEmpty then ground
    else if !tempo.rows.isEmpty then tempo else emptyDF
  if base.rows.isEmpty then emptyDF
  else
    let m1 := if !weather.rows.isEmpty then mergeLeft GRID_KEYS "" "_weather" base weather
      else base
    let m2 := if !tempo.rows.isEmpty then mergeLeft GRID_KEYS "" "_satellite" m1 tempo
      else m1
    if !viirs.rows.isEmpty then mergeLeft GRID_KEYS "" "_viirs" m2 viirs else m2

/-! ### Spatial aggregator (`_aggregate_spatial`) -/

/-- The `rename_map` of the recovery branch.  It is only built when no
canonical column is present, so the first loop over
`['NO2','O3','CO','SO2']` (all of them canonical) necessarily
contributes nothing; only the two satellite PM renames can fire. -/
def renamePairs (df : DF) : List (String × String) :=
  (if df.cols.contains "PM2.5_satellite" then [("PM2.5_satellite", "PM2.5")] else [])
    ++ (if df.cols.contains "PM10_satellite" then [("PM10_satellite", "PM10")] else [])

def renameCol (pairs : List (String × String)) (c : String) : String :=
  (pairs.lookup c).getD c

def renameRow (pairs : List (String × String)) (r : Row) : Row :=
  r.map (fun p => (renameCol pairs p.1, p.2))

/-- `_aggregate_spatial`: standardise/dropna the time column, determine
the available canonical columns (attempting the satellite rename when
none is present), then `groupby('time').agg({col: 'mean'})` — one row
per distinct hour, sorted ascending, keeping only `time` plus the
available canonical columns. -/
def aggregateSpatial (df : DF) : DF :=
  if df.rows.isEmpty then emptyDF
  else if df.cols.contains "time" then
    let rows1 := df.rows.filter (fun r => (getCell r "time").isSome)
    let available := CANONICAL.filter (fun c => df.cols.contains c)
    let cols2 := if available.isEmpty then df.cols.map (renameCol (renamePairs df))
      else df.cols
    let rows2 := if available.isEmpty then rows1.map (renameRow (renamePairs df))
      else rows1
    let available2 := CANONICAL.filter (fun c => cols2.contains c)
    let times := sortDedup (rows2.filterMap (fun r => getCell r "time"))
    ⟨"time" :: available2,
     times.map (fun t =>
       ("time", some t) ::
         available2.map (fun c =>
           (c, mean ((rows2.filter (fun r => getCell r "time" == some t)).filterMap
             (fun r => getCell r c)))))⟩
  else emptyDF

/-! ### Temporal scaffold builder (`_build_hourly_scaffold`) -/

/-- `pd.date_range(start, stop, freq='H')` on whole hours. -/
def dateRangeHourly (start stop : ℤ) : List ℤ :=
  if start ≤ stop then
    (List.range (stop - start + 1).toNat).map (fun (i : ℕ) => start + Int.ofNat i)
  else []

/-- The scaffold hours: `end` is `datetime.utcnow()` truncated to the
hour — ambient wall-clock state, modelled as the explicit parameter
`now` — and the range spans `[end - 7 days, end - 1 hour]`. -/
def scaffoldTimes (now : ℤ) : List ℤ := dateRangeHourly (now - 168) (now - 1)

/-- `_build_hourly_scaffold`: the hourly times plus every target data
column initialised to missing. -/
def buildHourlyScaffold (now : ℤ) : DF :=
  ⟨TARGET_COLUMNS,
   (scaffoldTimes now).map (fun (t : ℤ) =>
     ("time", some ((t : ℤ) : ℚ)) :: CANONICAL.map (fun c => (c, (none : Cell))))⟩

/-! ### Fallback imputer (`_fill_missing_values`) -/

/-- Assignment `df[col] = series`: replaces the cell when the column
exists in the row, otherwise appends it. -/
def setCell (r : Row) (c : String) (v : Cell) : Row :=
  if (r.lookup c).isSome then r.map (fun p => if p.1 == c then (p.1, v) else p)
  else r ++ [(c, v)]

/-- `df[col] = df[col].fillna(df[satCol])`, guarded by
`satCol in df.columns` as in the source (when the satellite column is
present but the base column is absent the source would raise a
`KeyError`; that state is unreachable in the pipeline, and the model
then simply appends the filled column). -/
def fillPair (col satCol : String) (df : DF) : DF :=
  if df.cols.contains satCol then
    ⟨df.cols,
     df.rows.map (fun r =>
       setCell r col ((getCell r col).orElse (fun _ => getCell r satCol)))⟩
  else df

/-- `_fill_missing_values`: PM2.5 and PM10 first, then the
`satellite_mapping` dict in insertion order (O3, NO2). -/
def fillMissingValues (df : DF) : DF :=
  fillPair "NO2" "NO2_satellite"
    (fillPair "O3" "O3_satellite"
      (fillPair "PM10" "PM10_satellite"
        (fillPair "PM2.5" "PM2.5_satellite" df)))

/-! ### Finalizer (`_finalize_dataset`) -/

/-- `sort_values('time')` comparison: ascending, missing times last. -/
def rowTimeLE (r s : Row) : Bool :=
  match getCell r "time", getCell s "time" with
  | some a, some b => decide (a ≤ b)
  | _, none => true
  | none, some _ => false

/-- `final_data[['PM2.5','PM10','O3','NO2','SO2','CO']].isna().all(axis=1)`
for one row, as a 1/0 cell. -/
def noDataFlag (r : Row) : ℚ :=
  if POLLUTANTS.all (fun c => (getCell r c).isNone) then 1 else 0

/-- `_finalize_dataset`: empty input gives the empty frame with the
target schema; otherwise sort by time, run the fallback imputer (called
identically in both branches of the `already_aggregated` test), copy the
target columns (creating missing ones as all-`NaN`), add `no_data_flag`
(its `'time' in final_data.columns` guard always holds since the target
schema contains `time`), and sort by time again. -/
def finalizeDataset (df : DF) : DF :=
  if df.rows.isEmpty then ⟨TARGET_COLUMNS, []⟩
  else
    let rows1 := if df.cols.contains "time" then df.rows.mergeSort rowTimeLE else df.rows
    let df2 := fillMissingValues ⟨df.cols, rows1⟩
    let finalRows := df2.rows.map (fun r =>
      TARGET_COLUMNS.map (fun c => (c, if df2.cols.contains c then getCell r c else none)))
    let flagged := finalRows.map (fun r => r ++ [("no_data_flag", some (noDataFlag r))])
    ⟨TARGET_COLUMNS ++ ["no_data_flag"], flagged.mergeSort rowTimeLE⟩

/-! ### `unify_all_sources` -/

/-- `DustIQDataUnifier.unify_all_sources`, as a function of the ambient
clock hour `now` (from `datetime.utcnow()`) and the per-source extracted
records standing for the fetched files of `data_sources`. -/
def unifyAllSources (now : ℤ) (ground : List GridObs) (tempo weather : List RawObs)
    (viirs : List AodObs) : DF :=
  let merged := mergeAllSources (processGroundData ground) (processTempoData tempo)
    (processWeatherData weather) (processViirsData viirs)
  let scaffold := buildHourlyScaffold now
  if merged.rows.isEmpty then scaffold
  else finalizeDataset (mergeLeft ["time"] "_x" "_y" scaffold (aggregateSpatial merged))

/-! ### Row-count lemmas for claim C1 -/

lemma scaffoldTimes_length (now : ℤ) : (scaffoldTimes now).length = 168 := by
  unfold scaffoldTimes dateRangeHourly
  rw [if_pos (by omega), List.length_map, List.length_range]
  omega

lemma buildHourlyScaffold_length (now : ℤ) :
    (buildHourlyScaffold now).rows.length = 168 := by
  unfold buildHourlyScaffold
  rw [show (DF.mk TARGET_COLUMNS ((scaffoldTimes now).map (fun (t : ℤ) =>
      ("time", some ((t : ℤ) : ℚ)) :: CANONICAL.map (fun c => (c, (none : Cell)))))).rows
    = (scaffoldTimes now).map (fun (t : ℤ) =>
      ("time", some ((t : ℤ) : ℚ)) :: CANONICAL.map (fun c => (c, (none : Cell)))) from rfl]
  rw [List.length_map, scaffoldTimes_length]

lemma fillPair_rows_length (col satCol : String) (df : DF) :
    (fillPair col satCol df).rows.length = df.rows.length := by
  simp only [fillPair]
  split <;> simp

lemma fillMissingValues_rows_length (df : DF) :
    (fillMissingValues df).rows.length = df.rows.length := by
  simp only [fillMissingValues]
  rw [fillPair_rows_length, fillPair_rows_length, fillPair_rows_length,
    fillPair_rows_length]

/-- The finalizer neither drops nor duplicates rows (in particular it
performs no time de-duplication). -/
lemma finalizeDataset_rows_length (df : DF) :
    (finalizeDataset df).rows.length = df.rows.length := by
  simp only [finalizeDataset]
  split
  · next h => rw [List.isEmpty_iff.mp h]
  · simp only [List.length_mergeSort, List.length_map]
    rw [fillMissingValues_rows_length]
    split <;> simp

lemma length_flatMap_of_forall_one {α β : Type} (l : List α) (f : α → List β)
    (h : ∀ a ∈ l, (f a).length = 1) : (l.flatMap f).length = l.length := by
  induction l with
  | nil => rfl
  | cons a t ih =>
    rw [List.flatMap_cons, List.length_append, h a (List.mem_cons_self a t),
      ih (fun b hb => h b (List.mem_cons_of_mem a hb)), List.length_cons]
    omega

lemma mergeRowsFor_length_one (keys : List String) (overlap rightDataCols : List String)
    (suffL suffR : String) (R : DF) (r : Row)
    (h : (R.rows.filter (fun s => keyMatch keys r s)).length ≤ 1) :
    (mergeRowsFor keys overlap rightDataCols suffL suffR R r).length = 1 := by
  unfold mergeRowsFor
  cases hm : R.rows.filter (fun s => keyMatch keys r s) with
  | nil => rfl
  | cons s tl =>
    rw [hm] at h
    cases tl with
    | nil => rfl
    | cons s2 tl2 => simp at h

/-- A left merge against a right table whose key is unique preserves the
left row count. -/
lemma mergeLeft_rows_length (keys : List String) (suffL suffR : String) (L R : DF)
    (h : ∀ r : Row, (R.rows.filter (fun s => keyMatch keys r s)).length ≤ 1) :
    (mergeLeft keys suffL suffR L R).rows.length = L.rows.length := by
  simp only [mergeLeft]
  exact length_flatMap_of_forall_one _ _
    (fun r _ => mergeRowsFor_length_one _ _ _ _ _ _ _ (h r))

lemma length_filter_le_one {α β : Type} [DecidableEq β] (l : List α) (f : α → β) (b : β)
    (h : (l.map f).Nodup) (p : α → Bool) (hp : ∀ a, p a = true → f a = b) :
    (l.filter p).length ≤ 1 := by
  induction l with
  | nil => simp
  | cons x xs ih =>
    rw [List.map_cons, List.nodup_cons] at h
    rw [List.filter_cons]
    split
    · next hpx =>
      have hnil : xs.filter p = [] := by
        rw [List.filter_eq_nil_iff]
        intro a ha hpa
        exact h.1 ((hp x hpx) ▸ (hp a hpa) ▸ List.mem_map_of_mem f ha)
      simp [hnil]
    · exact ih h.2

/-- The spatial aggregator's output has pairwise-distinct times (it is a
`groupby('time')`), whatever its input. -/
lemma aggregateSpatial_times_nodup (df : DF) :
    ((aggregateSpatial df).rows.map (fun r => getCell r "time")).Nodup := by
  simp only [aggregateSpatial]
  split
  · simp [emptyDF]
  · split
    · rw [List.map_map]
      have hcomp : ∀ t : ℚ,
          ((fun r => getCell r "time") ∘
            (fun t => (("time", some t) :: (CANONICAL.filter (fun c =>
              (if (CANONICAL.filter (fun c => df.cols.contains c)).isEmpty then
                  df.cols.map (renameCol (renamePairs df))
                else df.cols).contains c)).map (fun c =>
              (c, mean (((if (CANONICAL.filter (fun c => df.cols.contains c)).isEmpty then
                    (df.rows.filter (fun r => (getCell r "time").isSome)).map
                      (renameRow (renamePairs df))
                  else df.rows.filter (fun r => (getCell r "time").isSome)).filter
                  (fun r => getCell r "time" == some t)).filterMap
                  (fun r => getCell r c)))))) ) t = some t := by
        intro t
        simp [getCell, List.lookup]
      rw [List.map_congr_left (fun t _ => hcomp t)]
      exact (sortDedup_nodup _).map (Option.some_injective ℚ)
    · simp [emptyDF]

/-- Claim C1: for every input mapping of data sources — including the
fully empty one — `unify_all_sources` returns exactly one row per
scaffold timestamp, i.e. 168 rows for the fixed 7-day hourly window. -/
theorem claim1_output_row_count (now : ℤ) (ground : List GridObs)
    (tempo weather : List RawObs) (viirs : List AodObs) :
    (unifyAllSources now ground tempo weather viirs).rows.length = 168 := by
  simp only [unifyAllSources]
  split
  · exact buildHourlyScaffold_length now
  · rw [finalizeDataset_rows_length, mergeLeft_rows_length]
    · exact buildHourlyScaffold_length now
    · intro r
      apply length_filter_le_one _ (fun s => getCell s "time") (getCell r "time")
        (aggregateSpatial_times_nodup _)
      intro s hs
      simp only [keyMatch, List.all_cons, List.all_nil, Bool.and_true] at hs
      exact (beq_iff_eq.mp hs).symm

/-! ### Lookup lemmas for the finalizer rows -/

lemma lookup_map_of_not_mem (cs : List String) (g : String → Cell) (k : String)
    (h : k ∉ cs) : List.lookup k (cs.map (fun c => (c, g c))) = none := by
  induction cs with
  | nil => rfl
  | cons c t ih =>
    have h1 : (k == c) = false := beq_eq_false_iff_ne.mpr (by simp_all)
    have h2 : k ∉ t := by simp_all
    simp [List.lookup_cons, h1, ih h2]

lemma lookup_map_of_mem (cs : List String) (g : String → Cell) (k : String)
    (h : k ∈ cs) : List.lookup k (cs.map (fun c => (c, g c))) = some (g k) := by
  induction cs with
  | nil => simp at h
  | cons c t ih =>
    by_cases hk : k = c
    · subst hk
      simp [List.lookup_cons]
    · have h1 : (k == c) = false := beq_eq_false_iff_ne.mpr hk
      have h2 : k ∈ t := by
        rcases List.mem_cons.mp h with h3 | h3
        · exact absurd h3 hk
        · exact h3
      simp [List.lookup_cons, h1, ih h2]

lemma lookup_append_of_none {l₁ l₂ : Row} {k : String} (h : List.lookup k l₁ = none) :
    List.lookup k (l₁ ++ l₂) = List.lookup k l₂ := by
  induction l₁ with
  | nil => rfl
  | cons p t ih =>
    obtain ⟨a, b⟩ := p
    rw [List.lookup_cons] at h
    rw [List.cons_append, List.lookup_cons]
    cases hkc : (k == a) with
    | true => rw [hkc] at h; simp at h
    | false => rw [hkc] at h; exact ih h

lemma lookup_append_of_some {l₁ l₂ : Row} {k : String} {v : Cell}
    (h : List.lookup k l₁ = some v) : List.lookup k (l₁ ++ l₂) = some v := by
  induction l₁ with
  | nil => simp at h
  | cons p t ih =>
    obtain ⟨a, b⟩ := p
    rw [List.lookup_cons] at h
    rw [List.cons_append, List.lookup_cons]
    cases hkc : (k == a) with
    | true => rw [hkc] at h; exact h
    | false => rw [hkc] at h; exact ih h

/-- What the finalizer's flagged row looks like: the `no_data_flag` cell
holds exactly the all-pollutants-missing indicator of the target-column
row, and the target cells are unchanged by appending the flag. -/
lemma flagged_row_spec (g : String → Cell) :
    getCell (TARGET_COLUMNS.map (fun c => (c, g c))
        ++ [("no_data_flag", some (noDataFlag (TARGET_COLUMNS.map (fun c => (c, g c)))))])
        "no_data_flag"
      = some (noDataFlag (TARGET_COLUMNS.map (fun c => (c, g c))))
    ∧ ∀ p ∈ TARGET_COLUMNS,
        getCell (TARGET_COLUMNS.map (fun c => (c, g c))
            ++ [("no_data_flag", some (noDataFlag (TARGET_COLUMNS.map (fun c => (c, g c)))))]) p
          = getCell (TARGET_COLUMNS.map (fun c => (c, g c))) p := by
  constructor
  · unfold getCell
    rw [lookup_append_of_none (lookup_map_of_not_mem _ _ _ (by decide))]
    rfl
  · intro p hp
    unfold getCell
    rw [lookup_append_of_some (lookup_map_of_mem _ _ _ hp), lookup_map_of_mem _ _ _ hp]

/-- Every row of a non-degraded finalizer output is a full target-schema
row followed by its `no_data_flag` cell. -/
lemma finalize_rows_shape (df : DF) (r : Row) (hr : r ∈ (finalizeDataset df).rows) :
    ∃ g : String → Cell,
      r = TARGET_COLUMNS.map (fun c => (c, g c))
        ++ [("no_data_flag",
             some (noDataFlag (TARGET_COLUMNS.map (fun c => (c, g c)))))] := by
  simp only [finalizeDataset] at hr
  split at hr
  · simp at hr
  · rw [List.mem_mergeSort] at hr
    obtain ⟨fr0, hfr0, rfl⟩ := List.mem_map.mp hr
    obtain ⟨r0, hr0, rfl⟩ := List.mem_map.mp hfr0
    exact ⟨_, rfl⟩

/-- Claim C2 (amended): every row produced by the finalizer (the
non-degraded path of `unify_all_sources`) carries a `no_data_flag` cell
that is true exactly when all six pollutant cells of that row are
missing; the degraded all-empty run instead returns the scaffold, which
has no `no_data_flag` column at all (see the counterexample). -/
theorem claim2_amended_no_data_flag (df : DF) (r : Row)
    (hr : r ∈ (finalizeDataset df).rows) :
    (getCell r "no_data_flag").isSome = true
      ∧ ((getCell r "no_data_flag" = some 1)
          ↔ (POLLUTANTS.all (fun c => (getCell r c).isNone)) = true) := by
  obtain ⟨g, rfl⟩ := finalize_rows_shape df r hr
  obtain ⟨hflag, hcells⟩ := flagged_row_spec g
  constructor
  · rw [hflag]
    rfl
  · rw [hflag]
    have hpoll :
        (POLLUTANTS.all (fun c => (getCell (TARGET_COLUMNS.map (fun c => (c, g c))
            ++ [("no_data_flag",
                 some (noDataFlag (TARGET_COLUMNS.map (fun c => (c, g c)))))]) c).isNone))
          = (POLLUTANTS.all (fun c =>
              (getCell (TARGET_COLUMNS.map (fun c => (c, g c))) c).isNone)) := by
      simp only [POLLUTANTS, List.all_cons, List.all_nil]
      rw [hcells "PM2.5" (by decide), hcells "PM10" (by decide), hcells "O3" (by decide),
        hcells "NO2" (by decide), hcells "SO2" (by decide), hcells "CO" (by decide)]
    rw [hpoll]
    unfold noDataFlag
    split
    · next hall => simp [hall]
    · next hall =>
      constructor
      · intro h0
        exact absurd (Option.some_inj.mp h0) (by norm_num)
      · intro h0
        exact absurd h0 hall

/-- Claim C2, counterexample: with all four sources empty the degraded
path returns the scaffold directly — 168 rows and the bare target schema,
with no `no_data_flag` column — so "every row has a `no_data_flag`
field" fails on this run. -/
theorem claim2_counterexample :
    (unifyAllSources 0 [] [] [] []).cols.contains "no_data_flag" = false
      ∧ (unifyAllSources 0 [] [] [] []).rows.length = 168 := by
  have h : unifyAllSources 0 [] [] [] [] = buildHourlyScaffold 0 := rfl
  rw [h]
  exact ⟨by decide, buildHourlyScaffold_length 0⟩

/-- The single output row of finalizing a one-row frame that has PM2.5
present: every other target column is created missing and the flag is 0. -/
def claim2WitnessRow : Row :=
  [("time", some 0), ("PM2.5", some 12), ("PM10", none), ("O3", none), ("NO2", none),
   ("SO2", none), ("CO", none), ("temperature", none), ("humidity", none),
   ("wind_speed", none), ("no_data_flag", some 0)]

/-- Claim C2, witness instantiation: a concrete one-row frame through the
finalizer — the row with a present PM2.5 gets `no_data_flag = 0`. -/
theorem claim2_witness :
    claim2WitnessRow ∈ (finalizeDataset ⟨["time", "PM2.5"],
        [[("time", some 0), ("PM2.5", some 12)]]⟩).rows
      ∧ (getCell claim2WitnessRow "no_data_flag").isSome = true
      ∧ ((getCell claim2WitnessRow "no_data_flag" = some 1)
          ↔ (POLLUTANTS.all (fun c => (getCell claim2WitnessRow c).isNone)) = true) :=
  ⟨by with_unfolding_all decide,
   claim2_amended_no_data_flag ⟨["time", "PM2.5"],
     [[("time", some 0), ("PM2.5", some 12)]]⟩ claim2WitnessRow
     (by with_unfolding_all decide)⟩

/-! ### Claim C3: the fallback-priority contract against the pipeline -/

/-- One ground PM2.5 reading (12 µg/m³) at hour 100 inside the scaffold
window of `now = 168`, at grid cell (34, -118.25). -/
def claim3GroundInput : List GridObs :=
  [⟨100, some 34, some (-473 / 4), "PM2.5", some 12⟩]

/-- Claim C3: the ground value 12 survives merging and aggregation
(second conjunct), yet the published `unify_all_sources` output has a
missing PM2.5 in every one of its rows (first conjunct): the scaffold
left-join suffixes the overlapping pollutant columns to `*_x`/`*_y` and
the finalizer then recreates them as all-missing, so a present primary
value never equals the result. -/
theorem claim3_code_bug_ground_value_never_reaches_output :
    ((unifyAllSources 168 claim3GroundInput [] [] []).rows.all
        (fun r => (getCell r "PM2.5").isNone)) = true
      ∧ getCell ((aggregateSpatial (mergeAllSources (processGroundData claim3GroundInput)
          emptyDF emptyDF emptyDF)).rows.headD []) "PM2.5" = some 12 := by
  set_option maxRecDepth 100000 in with_unfolding_all decide

/-! ### Claim C4: determinism and the scaffold window -/

/-- Claim C4, counterexample: two invocations with identical (empty)
`data_sources` mappings but different ambient clock hours return
different tables — `unify_all_sources` is not a function of
`data_sources` alone, and the scaffold window tracks `datetime.utcnow()`
rather than any `window_end` input. -/
theorem claim4_counterexample :
    unifyAllSources 0 [] [] [] [] ≠ unifyAllSources 24 [] [] [] [] := by
  with_unfolding_all decide

/-- Claim C4 (amended): `unify_all_sources` is deterministic in its
inputs TOGETHER WITH the ambient UTC clock hour: equal source records
and an equal clock give identical output tables, and the scaffold is
exactly the trailing 168 hours ending at (and excluding) the current
hour — a function of the clock, not of a `window_end` parameter. -/
theorem claim4_amended_determinism (now1 now2 : ℤ) (g1 g2 : List GridObs)
    (t1 t2 w1 w2 : List RawObs) (v1 v2 : List AodObs)
    (hn : now1 = now2) (hg : g1 = g2) (ht : t1 = t2) (hw : w1 = w2) (hv : v1 = v2) :
    unifyAllSources now1 g1 t1 w1 v1 = unifyAllSources now2 g2 t2 w2 v2
      ∧ scaffoldTimes now1 = (List.range 168).map (fun i => now1 - 168 + Int.ofNat i) := by
  subst hn hg ht hw hv
  refine ⟨rfl, ?_⟩
  unfold scaffoldTimes dateRangeHourly
  rw [if_pos (by omega), show (now1 - 1 - (now1 - 168) + 1).toNat = 168 from by omega]

/-- Claim C4, witness instantiation at clock hour 5 and empty sources. -/
theorem claim4_witness :
    unifyAllSources 5 [] [] [] [] = unifyAllSources 5 [] [] [] []
      ∧ scaffoldTimes 5 = (List.range 168).map (fun i => 5 - 168 + Int.ofNat i) :=
  claim4_amended_determinism 5 5 [] [] [] [] [] [] [] [] rfl rfl rfl rfl rfl

/-! ### Claim C5: idempotence of the grid snap -/

/-- Claim C5: for every positive resolution and coordinates inside the
configured bounding box (south 20, north 55, west -130, east -60),
snapping an already-snapped pair returns the same pair. -/
theorem claim5_snap_idempotent (r lat lon : ℚ) (hr : 0 < r)
    (hlat1 : 20 ≤ lat) (hlat2 : lat ≤ 55) (hlon1 : -130 ≤ lon) (hlon2 : lon ≤ -60) :
    snapPair r (snap r lat) (snap r lon) = snapPair r lat lon := by
  unfold snapPair
  rw [snap_snap (ne_of_gt hr), snap_snap (ne_of_gt hr)]

/-- Claim C5, witness instantiation at the configured resolution 0.125
and the in-box point (34, -118). -/
theorem claim5_witness :
    (0 : ℚ) < 1 / 8 ∧ (20 : ℚ) ≤ 34 ∧ (34 : ℚ) ≤ 55
      ∧ (-130 : ℚ) ≤ -118 ∧ (-118 : ℚ) ≤ -60
      ∧ snapPair (1 / 8) (snap (1 / 8) 34) (snap (1 / 8) (-118))
          = snapPair (1 / 8) 34 (-118) :=
  ⟨by with_unfolding_all decide, by with_unfolding_all decide,
   by with_unfolding_all decide, by with_unfolding_all decide,
   by with_unfolding_all decide,
   claim5_snap_idempotent (1 / 8) 34 (-118) (by with_unfolding_all decide)
     (by with_unfolding_all decide) (by with_unfolding_all decide)
     (by with_unfolding_all decide) (by with_unfolding_all decide)⟩

/-! ### Claim C6: coordinates within half a grid step -/

/-- Claim C6, counterexample: latitudes 34.0624 and 34.0626 differ by
0.0002 ≤ 0.0625 (half the 0.125° step) and share the longitude -118.25,
yet they straddle the rounding boundary 34.0625 and receive DIFFERENT
grid cells (34.0 versus 34.125). -/
theorem claim6_counterexample :
    |(340624 / 10000 : ℚ) - 340626 / 10000| ≤ (1 / 8) / 2
      ∧ |(-473 / 4 : ℚ) - (-473 / 4)| ≤ (1 / 8) / 2
      ∧ snapPair (1 / 8) (340624 / 10000) (-473 / 4)
          ≠ snapPair (1 / 8) (340626 / 10000) (-473 / 4) := by
  refine ⟨by with_unfolding_all decide, by with_unfolding_all decide, ?_⟩
  with_unfolding_all decide

/-- Claim C6 (amended): two observations whose latitudes both lie
strictly within half a grid step of a common grid multiple `k * r`, and
whose longitudes both lie strictly within half a grid step of a common
grid multiple `m * r`, receive the same GridCell. -/
theorem claim6_amended_same_cell_near_common_grid_point
    (r lat1 lat2 lon1 lon2 : ℚ) (k m : ℤ) (hr : 0 < r)
    (h1 : |lat1 - k * r| < r / 2) (h2 : |lat2 - k * r| < r / 2)
    (h3 : |lon1 - m * r| < r / 2) (h4 : |lon2 - m * r| < r / 2) :
    snapPair r lat1 lon1 = snapPair r lat2 lon2 := by
  unfold snapPair
  rw [snap_eq_of_near_grid hr h1, snap_eq_of_near_grid hr h3,
    snap_eq_of_near_grid hr h2, snap_eq_of_near_grid hr h4]

/-- Claim C6, witness instantiation: 34.001 and 33.999 are both within
1/16 of the grid point 34 = 272·(1/8) and snap to the same cell. -/
theorem claim6_witness :
    (0 : ℚ) < 1 / 8
      ∧ |(34001 / 1000 : ℚ) - 272 * (1 / 8)| < (1 / 8) / 2
      ∧ |(33999 / 1000 : ℚ) - 272 * (1 / 8)| < (1 / 8) / 2
      ∧ |(-473 / 4 : ℚ) - (-946) * (1 / 8)| < (1 / 8) / 2
      ∧ snapPair (1 / 8) (34001 / 1000) (-473 / 4)
          = snapPair (1 / 8) (33999 / 1000) (-473 / 4) :=
  ⟨by with_unfolding_all decide, by with_unfolding_all decide,
   by with_unfolding_all decide, by with_unfolding_all decide,
   claim6_amended_same_cell_near_common_grid_point (1 / 8) (34001 / 1000) (33999 / 1000)
     (-473 / 4) (-473 / 4) 272 (-946) (by with_unfolding_all decide)
     (by with_unfolding_all decide) (by with_unfolding_all decide)
     (by with_unfolding_all decide) (by with_unfolding_all decide)⟩

/-! ### Claim C8: the finalizer sorts but does not de-duplicate -/

/-- Claim C8, counterexample: a two-row input with the duplicated
timestamp 0 leaves the finalizer with BOTH rows — no de-duplication on
time happens (the claim expects only the first occurrence kept). -/
theorem claim8_counterexample :
    (finalizeDataset ⟨["time"], [[("time", some 0)], [("time", some 0)]]⟩).rows.length = 2
      ∧ ((finalizeDataset ⟨["time"],
          [[("time", some 0)], [("time", some 0)]]⟩).rows.map
            (fun r => getCell r "time")) = [some 0, some 0] := by
  with_unfolding_all decide

lemma rowTimeLE_total (r s : Row) : (rowTimeLE r s || rowTimeLE s r) = true := by
  unfold rowTimeLE
  cases hr : getCell r "time" <;> cases hs : getCell s "time" <;> simp
  rename_i a b
  rcases le_total a b with h | h <;> simp [h]

lemma rowTimeLE_trans (r s t : Row) (h1 : rowTimeLE r s) (h2 : rowTimeLE s t) :
    rowTimeLE r t := by
  unfold rowTimeLE at *
  cases hr : getCell r "time" <;> cases hs : getCell s "time" <;>
    cases ht : getCell t "time" <;> simp_all
  exact le_trans h1 h2

/-- Claim C8 (amended): the finalizer returns the rows sorted ascending
by time (missing times last), but KEEPS duplicate timestamps — the row
count always equals the input row count. -/
theorem claim8_amended_sorted_not_deduplicated (df : DF) :
    (finalizeDataset df).rows.length = df.rows.length
      ∧ List.Pairwise (fun r s => rowTimeLE r s = true) (finalizeDataset df).rows := by
  refine ⟨finalizeDataset_rows_length df, ?_⟩
  simp only [finalizeDataset]
  split
  · simp
  · exact List.sorted_mergeSort rowTimeLE_trans rowTimeLE_total _

/-! ### Claim C10: the aggregator discards suffixed secondary columns -/

/-- Claim C10: whenever the merged wide table is non-empty and still
carries at least one canonical variable column, the spatial aggregator
outputs exactly `time` plus the available canonical columns — every
suffixed secondary-source column (`*_satellite`, `*_weather`, `*_viirs`)
is discarded and can never reach the fallback imputer. -/
theorem claim10_aggregator_keeps_only_canonical (df : DF)
    (h1 : df.rows ≠ []) (h2 : df.cols.contains "time" = true)
    (h3 : ∃ c, c ∈ CANONICAL ∧ df.cols.contains c = true) :
    (aggregateSpatial df).cols = "time" :: CANONICAL.filter (fun c => df.cols.contains c)
      ∧ ∀ c ∈ (aggregateSpatial df).cols, c = "time" ∨ c ∈ CANONICAL := by
  have hav : (CANONICAL.filter (fun c => df.cols.contains c)).isEmpty = false := by
    obtain ⟨c, hc1, hc2⟩ := h3
    have hm : c ∈ CANONICAL.filter (fun c => df.cols.contains c) :=
      List.mem_filter.mpr ⟨hc1, hc2⟩
    cases hf : CANONICAL.filter (fun c => df.cols.contains c) with
    | nil => rw [hf] at hm; simp at hm
    | cons a b => rfl
  have hcols : (aggregateSpatial df).cols
      = "time" :: CANONICAL.filter (fun c => df.cols.contains c) := by
    simp only [aggregateSpatial]
    rw [if_neg (by simp [List.isEmpty_iff, h1]), if_pos h2, hav]
    rfl
  refine ⟨hcols, ?_⟩
  intro c hc
  rw [hcols] at hc
  rcases List.mem_cons.mp hc with h | h
  · exact Or.inl h
  · exact Or.inr (List.mem_filter.mp h).1

/-- Claim C10, witness instantiation: a one-row merged table carrying
`NO2` and the suffixed `NO2_satellite`; the aggregator's output columns
are exactly `[time, NO2]`. -/
theorem claim10_witness :
    (aggregateSpatial ⟨["time", "NO2", "NO2_satellite"],
        [[("time", some 0), ("NO2", none), ("NO2_satellite", some 2)]]⟩).cols
      = "time" :: CANONICAL.filter (fun c =>
          (["time", "NO2", "NO2_satellite"] : List String).contains c)
      ∧ ∀ c ∈ (aggregateSpatial ⟨["time", "NO2", "NO2_satellite"],
          [[("time", some 0), ("NO2", none), ("NO2_satellite", some 2)]]⟩).cols,
        c = "time" ∨ c ∈ CANONICAL :=
  claim10_aggregator_keeps_only_canonical
    ⟨["time", "NO2", "NO2_satellite"],
     [[("time", some 0), ("NO2", none), ("NO2_satellite", some 2)]]⟩
    (by with_unfolding_all decide) (by with_unfolding_all decide)
    ⟨"NO2", by with_unfolding_all decide, by with_unfolding_all decide⟩

end DustIQ
